import Mathlib

/-!
Verification development for the mumpce_py Cantera chemistry model layer.

The source consists of two Python files:
  * `cantera_utils/cantera_chemistry_model.py` — the `CanteraChemistryModel`
    base class: parameter catalog construction (`get_reaction_info`,
    `get_model_parameter_info`), parameter access (`get_parameter`,
    `perturb_parameter`), chemistry lifecycle (`blank_chemistry`,
    `initialize_chemistry`, `reset_model`), and the finite-difference
    `sensitivity` routine.
  * `cantera_utils/flame_speed.py` — the `FlameSpeed` subclass: the staged
    continuation `evaluate`, the restart-file methods, and the adjoint
    `sensitivity`.

Numeric rate-law data is embedded over `ℚ` (the Python code uses floats, but
every property of interest here is exact arithmetic and data-flow, not
rounding).  The external Cantera solver is modelled by explicit oracles; the
data the code reads from and writes to Cantera objects (rate triples,
third-body efficiencies, solve success/failure, saved solutions) is carried
in explicit state records.
-/

/-- Cantera `Arrhenius` rate: the (A, b, E) rate-law triple, with the source's
attribute names. -/
structure Arrhenius where
  pre_exponential_factor : ℚ
  temperature_exponent : ℚ
  activation_energy : ℚ
deriving DecidableEq

/-- A reaction as read from a Cantera mechanism: its numeric reaction-type
code, its equation string, its plain rate, its high- and low-pressure falloff
rates, and its third-body efficiency map (as an association list, mirroring
the Python dict's iteration order; Cantera dict keys are unique). -/
structure Reaction where
  reaction_type : ℕ
  equation : String
  rate : Arrhenius
  high_rate : Arrhenius
  low_rate : Arrhenius
  efficiencies : List (String × ℚ)
deriving DecidableEq

/-- The `parameter_type` strings that `get_reaction_info` puts into the
catalog.  Only these seven strings ever occur as a `parameter_type`. -/
inductive ParamType where
  | A_factor
  | Energy
  | High_pressure_A
  | High_pressure_E
  | Low_pressure_A
  | Low_pressure_E
  | Efficiency
deriving DecidableEq

/-- Python `'pressure' in parameter_type`, evaluated on each of the seven
concrete `parameter_type` strings. -/
def hasPressure : ParamType → Bool
  | ParamType.High_pressure_A => true
  | ParamType.High_pressure_E => true
  | ParamType.Low_pressure_A => true
  | ParamType.Low_pressure_E => true
  | _ => false

/-- Python `'High' in parameter_type` on the seven concrete strings. -/
def hasHigh : ParamType → Bool
  | ParamType.High_pressure_A => true
  | ParamType.High_pressure_E => true
  | _ => false

/-- Python `'Low' in parameter_type` on the seven concrete strings. -/
def hasLow : ParamType → Bool
  | ParamType.Low_pressure_A => true
  | ParamType.Low_pressure_E => true
  | _ => false

/-- Python `'A' in parameter_type` on the seven concrete strings
(`'A_factor'`, `'High_pressure_A'`, `'Low_pressure_A'` contain a capital A;
the others do not). -/
def hasA : ParamType → Bool
  | ParamType.A_factor => true
  | ParamType.High_pressure_A => true
  | ParamType.Low_pressure_A => true
  | _ => false

/-- Python `'E' in parameter_type` on the seven concrete strings.  Note that
`'Efficiency'` does contain a capital E (its first letter), exactly as in the
source's substring test. -/
def hasE : ParamType → Bool
  | ParamType.Energy => true
  | ParamType.High_pressure_E => true
  | ParamType.Low_pressure_E => true
  | ParamType.Efficiency => true
  | _ => false

/-- One catalog entry: the dict
`{'reaction_number': …, 'parameter_type': …, 'parameter_name': …}` emitted by
`get_reaction_info`, with the optional `'species'` key of Efficiency
entries. -/
structure ParamInfo where
  reaction_number : ℕ
  parameter_type : ParamType
  parameter_name : String
  species : Option String
deriving DecidableEq

/-- `HasThirdBody` as `get_reaction_info` actually computes it: reaction-type
codes 4 and 2 set it.  For reaction-type 8 the source assigns the misspelled
local variable `HasThirdbody` (lowercase b), so `HasThirdBody` is NOT set for
type-8 reactions. -/
def hasThirdBodyOf (reaction : Reaction) : Bool :=
  reaction.reaction_type == 4 || reaction.reaction_type == 2

/-- `HasFalloff` as `get_reaction_info` computes it: reaction-type codes 4
and 8. -/
def hasFalloffOf (reaction : Reaction) : Bool :=
  reaction.reaction_type == 4 || reaction.reaction_type == 8

/-- `CanteraChemistryModel.get_reaction_info`: the per-reaction catalog
fragment.  A falloff reaction contributes `High_pressure_A`, then
`High_pressure_E` when `|high E| > 0.1`, then `Low_pressure_A`, then
`Low_pressure_E` when `|low E| > 0.1`; a non-falloff reaction contributes
`A_factor`, then `Energy` when `|E| > 0.1`.  A reaction with `HasThirdBody`
set appends one `Efficiency` entry per species whose efficiency is strictly
positive (the source iterates the efficiency dict and tests
`reaction.efficiency(species_name) > 0`).  The source reads the reaction
name through `self.gas.reaction_equations`; it equals the reaction's own
equation string, used here directly. -/
def get_reaction_info (reaction_number : ℕ) (reaction : Reaction) : List ParamInfo :=
  let reaction_name := reaction.equation
  let base : List ParamInfo :=
    if hasFalloffOf reaction then
      [⟨reaction_number, ParamType.High_pressure_A, reaction_name ++ ":HpA", none⟩]
        ++ (if (1/10 : ℚ) < |reaction.high_rate.activation_energy| then
              [⟨reaction_number, ParamType.High_pressure_E, reaction_name ++ ":HpE", none⟩]
            else [])
        ++ [⟨reaction_number, ParamType.Low_pressure_A, reaction_name ++ ":LpA", none⟩]
        ++ (if (1/10 : ℚ) < |reaction.low_rate.activation_energy| then
              [⟨reaction_number, ParamType.Low_pressure_E, reaction_name ++ ":LpE", none⟩]
            else [])
    else
      [⟨reaction_number, ParamType.A_factor, reaction_name ++ ":A", none⟩]
        ++ (if (1/10 : ℚ) < |reaction.rate.activation_energy| then
              [⟨reaction_number, ParamType.Energy, reaction_name ++ ":E", none⟩]
            else [])
  base ++
    (if hasThirdBodyOf reaction then
        (reaction.efficiencies.filter (fun se => decide ((0 : ℚ) < se.2))).map
          (fun se => ⟨reaction_number, ParamType.Efficiency,
                      reaction_name ++ ":Eff:" ++ se.1, some se.1⟩)
      else [])

/-- The post-hoc inclusion test of `get_model_parameter_info`, mirroring the
source's chain of `if flag: if param_info['parameter_type'] == …:
include_this_parameter = False` statements. -/
def keepParam (no_efficiencies no_energy no_falloff : Bool) (param_info : ParamInfo) : Bool :=
  let inc := true
  let inc := if no_efficiencies && (param_info.parameter_type == ParamType.Efficiency) then false else inc
  let inc := if no_energy && (param_info.parameter_type == ParamType.Energy) then false else inc
  let inc := if no_energy && (param_info.parameter_type == ParamType.Low_pressure_E) then false else inc
  let inc := if no_energy && (param_info.parameter_type == ParamType.High_pressure_E) then false else inc
  let inc := if no_falloff && (param_info.parameter_type == ParamType.Low_pressure_A) then false else inc
  let inc := if no_falloff && (param_info.parameter_type == ParamType.Low_pressure_E) then false else inc
  let inc := if no_falloff && (param_info.parameter_type == ParamType.High_pressure_E) then false else inc
  inc

/-- `CanteraChemistryModel.get_model_parameter_info`: instantiate a fresh
mechanism from the model's mechanism definition (here: the list of reactions
that definition declares), concatenate `get_reaction_info` over the reactions
in declared order, then filter by the exclusion flags. -/
def get_model_parameter_info (mech : List Reaction)
    (no_efficiencies no_energy no_falloff : Bool) : List ParamInfo :=
  (mech.enum.flatMap fun x => get_reaction_info x.1 x.2).filter
    (keepParam no_efficiencies no_energy no_falloff)

/-- The reaction-mutation core of `CanteraChemistryModel.perturb_parameter`:
given the catalog entry's `parameter_type`, the model's `no_falloff` flag and
the new value, rebuild the targeted `ct.Arrhenius` rates of the reaction.
Faithful points:
  * in the high-pressure branch the source executes `A = new_value` BEFORE
    `perturbation = new_value/A`, so the recorded perturbation is
    `new_value/new_value`;
  * `PerturbLow` is set when the parameter is a low-pressure one OR when the
    model's `no_falloff` flag is set;
  * the `else 1` default for `perturbation` stands for the Python name being
    unbound; among the seven catalog parameter types it is only ever read in
    the one case (`High_pressure_A`) where the source binds it. -/
def perturb_reaction (no_falloff : Bool) (parameter_type : ParamType)
    (new_value : ℚ) (reaction : Reaction) : Reaction :=
  if hasPressure parameter_type then
    let highrate := reaction.high_rate
    let lowrate := reaction.low_rate
    let hi :=
      if hasHigh parameter_type then
        let A := highrate.pre_exponential_factor
        let b := highrate.temperature_exponent
        let E := highrate.activation_energy
        let A := if hasA parameter_type then new_value else A
        let perturbation := if hasA parameter_type then new_value / new_value else 1
        let E := if hasE parameter_type then new_value else E
        ({ reaction with high_rate := ⟨A, b, E⟩ }, perturbation)
      else (reaction, 1)
    let reaction1 := hi.1
    let perturbation := hi.2
    let PerturbLow := hasLow parameter_type || no_falloff
    if PerturbLow then
      let A := lowrate.pre_exponential_factor
      let b := lowrate.temperature_exponent
      let E := lowrate.activation_energy
      let A := if hasA parameter_type then
                 (if hasLow parameter_type then new_value else perturbation * A)
               else A
      let E := if hasE parameter_type then new_value else E
      { reaction1 with low_rate := ⟨A, b, E⟩ }
    else reaction1
  else
    let rate := reaction.rate
    let A := rate.pre_exponential_factor
    let b := rate.temperature_exponent
    let E := rate.activation_energy
    let A := if hasA parameter_type then new_value else A
    let E := if hasE parameter_type then new_value else E
    { reaction with rate := ⟨A, b, E⟩ }

/-- A concrete falloff reaction (type 4) used to evaluate the coupling of the
high- and low-pressure A factors: high A = 2, low A = 5. -/
def rFo : Reaction :=
  { reaction_type := 4, equation := "RF",
    rate := ⟨1, 0, 0⟩, high_rate := ⟨2, 0, 1⟩, low_rate := ⟨5, 3, 7⟩,
    efficiencies := [] }

/-- A concrete chemically-activated falloff reaction (type 8) with one
strictly positive third-body efficiency. -/
def r8 : Reaction :=
  { reaction_type := 8, equation := "R8",
    rate := ⟨1, 0, 0⟩, high_rate := ⟨1, 0, 0⟩, low_rate := ⟨1, 0, 0⟩,
    efficiencies := [("AR", 1)] }

/-- The initial-state record.  `StateDefinition` (module `state_definition`,
not under src/) converts the pressure from atmospheres to pascals; modelled
from the spec: "pressure (Pa, stored internally converted from atm)". -/
structure InitialState where
  T : ℚ
  P : ℚ
  composition : String
deriving DecidableEq

/-- Modelled from the spec: `state_definition.StateDefinition` — stores the
temperature, the pressure converted from atm to Pa, and the composition. -/
def StateDefinition (T Patm : ℚ) (composition : String) : InitialState :=
  ⟨T, Patm * 101325, composition⟩

/-- The live `ct.Solution` object: the reaction list it was built from
(mutable through `modify_reaction`) and its TPX state. -/
structure Gas where
  reactions : List Reaction
  T : ℚ
  P : ℚ
  X : String
deriving DecidableEq

/-- The live `ct.FreeFlame` simulation object: the solver settings the source
reads and writes, plus `sol`, an abstract stand-in for the current flame
solution; `sol` plays the role of the boundary velocity `u[0]` (in m/s).
The steady/transient tolerances, solution bounds, refine criteria, Jacobian
age and time-step settings written by the source live inside the external
solver and are not modelled. -/
structure Simulation where
  energy_enabled : Bool
  transport_model : String
  soret_enabled : Bool
  sol : ℚ
deriving DecidableEq

/-- The `FlameSpeed` object (including the fields inherited from
`CanteraChemistryModel`): initial state, mechanism definition, the
`_sens_flag`, the exclusion flags, the parameter catalog, the tri-state live
chemistry (`gas`/`reactor`/`simulation`), the solver log level, the restart
file name, the `_restart` tri-state flag, and `restart_file` — the contents
(saved solution) of the named restart file on disk, modelling external
storage owned by this model. -/
structure FlameSpeed where
  initial : InitialState
  chemistry_model : List Reaction
  sens_flag : Bool
  no_efficiencies : Bool
  no_energy : Bool
  no_falloff : Bool
  model_parameter_info : List ParamInfo
  number_parameters : ℕ
  gas : Option Gas
  reactor : Option Unit
  simulation : Option Simulation
  loglevel : ℕ
  savefile : String
  restart : Option Bool
  restart_file : Option ℚ
deriving DecidableEq

/-- `CanteraChemistryModel.blank_chemistry`: set gas, reactor and simulation
to None. -/
def blank_chemistry (m : FlameSpeed) : FlameSpeed :=
  { m with gas := none, reactor := none, simulation := none }

/-- `CanteraChemistryModel.initialize_chemistry`: if the gas object is blank,
create the Cantera solution object from the mechanism definition (a fresh
`ct.Solution` carries the definition's reactions; its initial TPX is
immediately overwritten below), then set the gas TPX from `self.initial`. -/
def initialize_chemistry (m : FlameSpeed) : FlameSpeed :=
  let g : Gas :=
    match m.gas with
    | none => { reactions := m.chemistry_model, T := 0, P := 0, X := "" }
    | some g => g
  { m with gas := some { g with T := m.initial.T, P := m.initial.P, X := m.initial.composition } }

/-- `CanteraChemistryModel.reset_model`: blank the chemistry, then
re-initialize it from the mechanism definition. -/
def reset_model (m : FlameSpeed) : FlameSpeed :=
  initialize_chemistry (blank_chemistry m)

/-- `CanteraChemistryModel.get_parameter`: look up the catalog entry, fetch
the reaction from the live gas, and read the coefficient selected by the
substring tests on `parameter_type`.  `none` stands for the Python call
raising (bad id, blank gas, missing reaction, or no branch assigning
`parameter_value`).  The source runs `if 'A' in …:` and then `if 'E' in …:`
sequentially; no catalog `parameter_type` contains both letters, so the
else-if chain used here agrees with it. -/
def get_parameter (m : FlameSpeed) (parameter_id : ℕ) : Option ℚ :=
  match m.gas, m.model_parameter_info.get? parameter_id with
  | some g, some param_info =>
    match g.reactions.get? param_info.reaction_number with
    | some reaction =>
      if hasPressure param_info.parameter_type then
        if hasHigh param_info.parameter_type then
          if hasA param_info.parameter_type then some reaction.high_rate.pre_exponential_factor
          else if hasE param_info.parameter_type then some reaction.high_rate.activation_energy
          else none
        else if hasLow param_info.parameter_type then
          if hasA param_info.parameter_type then some reaction.low_rate.pre_exponential_factor
          else if hasE param_info.parameter_type then some reaction.low_rate.activation_energy
          else none
        else none
      else
        if hasA param_info.parameter_type then some reaction.rate.pre_exponential_factor
        else if hasE param_info.parameter_type then some reaction.rate.activation_energy
        else none
    | none => none
  | _, _ => none

/-- `CanteraChemistryModel.perturb_parameter`: look up the catalog entry,
rebuild the reaction's rates through `perturb_reaction`, and push the result
back with `gas.modify_reaction(reaction_number, reaction)` (modelled by
`List.set`).  If a lookup fails the Python call raises before any mutation,
leaving the object unchanged — modelled by returning the state as-is. -/
def perturb_parameter (m : FlameSpeed) (parameter_id : ℕ) (new_value : ℚ) : FlameSpeed :=
  match m.gas, m.model_parameter_info.get? parameter_id with
  | some g, some param_info =>
    match g.reactions.get? param_info.reaction_number with
    | some reaction =>
      let reaction := perturb_reaction m.no_falloff param_info.parameter_type new_value reaction
      { m with gas := some { g with reactions := g.reactions.set param_info.reaction_number reaction } }
    | none => m
  | _, _ => m

/-- A sequence of `perturb_parameter` calls, applied in order. -/
def applyPerturbs (ps : List (ℕ × ℚ)) (m : FlameSpeed) : FlameSpeed :=
  ps.foldl (fun m pr => perturb_parameter m pr.1 pr.2) m

/-- `FlameSpeed.__init__` plus `CanteraChemistryModel.__init__` and
`prepare_chemistry`: record the initial state and mechanism, clear
`_sens_flag`, blank the chemistry, initialize it, build the parameter
catalog from the flags, then blank the chemistry again so the object can be
pickled; finally record the save-file name and clear `_restart`. -/
def FlameSpeed.construct (T Patm : ℚ) (composition : String)
    (chemistry_model : List Reaction)
    (no_efficiencies no_energy no_falloff : Bool)
    (loglevel : ℕ) (nm : String) : FlameSpeed :=
  let m : FlameSpeed :=
    { initial := StateDefinition T Patm composition
      chemistry_model := chemistry_model
      sens_flag := false
      no_efficiencies := no_efficiencies
      no_energy := no_energy
      no_falloff := no_falloff
      model_parameter_info := []
      number_parameters := 0
      gas := none
      reactor := none
      simulation := none
      loglevel := loglevel
      savefile := nm ++ ".xml"
      restart := none
      restart_file := none }
  let m := blank_chemistry m
  let m := initialize_chemistry m
  let info := get_model_parameter_info chemistry_model no_efficiencies no_energy no_falloff
  let m := { m with model_parameter_info := info, number_parameters := info.length }
  blank_chemistry m

/-- The external flame solver's convergence behaviour during one `evaluate`
call: `ok n` tells whether the n-th solve attempt of that call converges,
and `out n` gives the resulting boundary velocity (m/s) when it does.  A
failed attempt raises in Python; the simulation is left as it was. -/
structure Solver where
  ok : ℕ → Bool
  out : ℕ → ℚ

/-- Observable events of one `evaluate` call: console messages, solve
attempts (with their `refine_grid` argument and outcome), and
`simulation.restore` calls (file and solution name). -/
inductive Ev where
  | msg (s : String)
  | solve (refine_grid : Bool) (ok : Bool)
  | restore (file : String) (nm : String)
deriving DecidableEq

def msg_stage1 : String := "Mixture-averaged solution, no energy equation, no grid refinement"

def msg_stage2 : String := "Mixture-averaged solution, enable energy equation and grid refinement"

def msg_stage3 : String := "Multicomponent solution"

def msg_retry : String := "As predicted, first attempt failed, trying one more time"

def msg_fail : String := "Could not find a solution"

def mixModel : String := "Mix"

def multiModel : String := "Multi"

def restartName : String := "restart"

/-- `FlameSpeed.initialize_reactor`: create the `ct.FreeFlame` simulation
object over the gas and the initial grid.  The steady/transient tolerances
and solution bounds it sets live inside the external solver; the fresh
object's settings and initial solution estimate are external defaults that
no claim depends on. -/
def freshFlame : Simulation :=
  { energy_enabled := false, transport_model := mixModel,
    soret_enabled := false, sol := 0 }

def initialize_reactor (m : FlameSpeed) : FlameSpeed :=
  { m with simulation := some freshFlame }

/-- One `self.simulation.solve(...)` call: attempt `n` of this `evaluate`
call, with the given `refine_grid` argument.  Returns the new simulation on
convergence, `none` when the solver raises (the simulation is then left
as-is by the model). -/
def solveAttempt (o : Solver) (n : ℕ) (refine_grid : Bool) (sim : Simulation) :
    Option Simulation × Ev :=
  if o.ok n then (some { sim with sol := o.out n }, Ev.solve refine_grid true)
  else (none, Ev.solve refine_grid false)

/-- The source's `try: solve … except: print(retry); try: solve … except:
print(fail)` pattern of cold-start stages one and two: attempt, retry once
on failure, swallow the second failure.  Returns the simulation, the next
attempt index and the emitted events. -/
def solveRetry (o : Solver) (n : ℕ) (refine_grid : Bool) (sim : Simulation) :
    Simulation × ℕ × List Ev :=
  match solveAttempt o n refine_grid sim with
  | (some sim1, e) => (sim1, n + 1, [e])
  | (none, e) =>
    match solveAttempt o (n + 1) refine_grid sim with
    | (some sim1, e2) => (sim1, n + 2, [e, Ev.msg msg_retry, e2])
    | (none, e2) => (sim, n + 2, [e, Ev.msg msg_retry, e2, Ev.msg msg_fail])

/-- The source's single `try: solve … except: print(fail)` pattern of
cold-start stage three and of the restart-load path: attempt once, swallow
the failure. -/
def solveOnceCaught (o : Solver) (n : ℕ) (refine_grid : Bool) (sim : Simulation) :
    Simulation × ℕ × List Ev :=
  match solveAttempt o n refine_grid sim with
  | (some sim1, e) => (sim1, n + 1, [e])
  | (none, e) => (sim, n + 1, [e, Ev.msg msg_fail])

/-- The events `solveRetry` emits, as a function of the oracle alone (the
attempt events do not depend on the simulation contents). -/
def retryEvs (o : Solver) (n : ℕ) (rg : Bool) : List Ev :=
  if o.ok n then [Ev.solve rg true]
  else [Ev.solve rg false, Ev.msg msg_retry, Ev.solve rg (o.ok (n + 1))] ++
    (if o.ok (n + 1) then [] else [Ev.msg msg_fail])

/-- The attempt index after a `solveRetry` stage. -/
def retryNext (o : Solver) (n : ℕ) : ℕ :=
  if o.ok n then n + 1 else n + 2

/-- The events `solveOnceCaught` emits. -/
def onceEvs (o : Solver) (n : ℕ) (rg : Bool) : List Ev :=
  Ev.solve rg (o.ok n) :: (if o.ok n then [] else [Ev.msg msg_fail])

/-- `FlameSpeed.evaluate`: initialize chemistry and reactor if absent, then
select one of three solve strategies from `(_restart, _sens_flag)`:
  * `_restart is None and _sens_flag is False` — cold start: stage (i)
    energy off, mixture-averaged transport, solve without grid refinement,
    retrying once on failure; stage (ii) energy on, solve with refinement,
    retrying once; stage (iii) multicomponent transport with Soret, solve
    with refinement once, failure swallowed;
  * `_sens_flag is True` — a single direct solve with energy on,
    multicomponent transport, Soret, no grid refinement, and NO try/except
    around it: a solver exception propagates out of `evaluate`;
  * otherwise — restore the named solution from the restart file (an
    uncaught restore failure also propagates), set energy on, multicomponent
    transport, Soret, then a single solve without grid refinement, failure
    swallowed.
Returns `u[0] / 1.0e-2` (cm/s), the final model state, and the event trace.
The `set_max_jac_age`, `set_time_step` and `set_refine_criteria` calls and
the prints of current settings tune or display external solver state and are
not modelled; the stage banners and failure messages are. -/
def FlameSpeed.evaluate (o : Solver) (m : FlameSpeed) : Except Unit ℚ × FlameSpeed × List Ev :=
  let m := if m.gas.isNone then initialize_chemistry m else m
  let m := if m.simulation.isNone then initialize_reactor m else m
  match m.simulation with
  | none => (Except.error (), m, [])
  | some sim =>
    if m.restart.isNone && !m.sens_flag then
      let sim := { sim with energy_enabled := false, transport_model := mixModel }
      let st1 := solveRetry o 0 false sim
      let st2 := solveRetry o st1.2.1 true { st1.1 with energy_enabled := true }
      let st3 := solveOnceCaught o st2.2.1 true
        { st2.1 with transport_model := multiModel, soret_enabled := true }
      (Except.ok (st3.1.sol / (1/100)), { m with simulation := some st3.1 },
       Ev.msg msg_stage1 :: st1.2.2 ++ Ev.msg msg_stage2 :: st2.2.2 ++
         Ev.msg msg_stage3 :: st3.2.2)
    else if m.sens_flag then
      let sim := { sim with energy_enabled := true, transport_model := multiModel,
                            soret_enabled := true }
      match solveAttempt o 0 false sim with
      | (some sim1, e) =>
          (Except.ok (sim1.sol / (1/100)), { m with simulation := some sim1 }, [e])
      | (none, e) =>
          (Except.error (), { m with simulation := some sim }, [e])
    else
      match m.restart_file with
      | none => (Except.error (), m, [Ev.restore m.savefile restartName])
      | some sol0 =>
        let sim := { sim with sol := sol0, energy_enabled := true,
                              transport_model := multiModel, soret_enabled := true }
        let st := solveOnceCaught o 0 false sim
        (Except.ok (st.1.sol / (1/100)), { m with simulation := some st.1 },
         Ev.restore m.savefile restartName :: st.2.2)

/-- `FlameSpeed.save_restart` (with its default arguments): save the current
solution under the name 'restart' in the model's save file, then set
`_restart = True`.  If the save raises (e.g. no simulation exists) the flag
is not touched and the object is unchanged. -/
def save_restart (m : FlameSpeed) : Except Unit FlameSpeed :=
  match m.simulation with
  | none => Except.error ()
  | some sim => Except.ok { m with restart_file := some sim.sol, restart := some true }

/-- `FlameSpeed.load_restart` (with its default arguments): restore the
solution named 'restart' from the model's save file into the simulation,
then set `_restart = True`.  If the restore raises the object is
unchanged. -/
def load_restart (m : FlameSpeed) : Except Unit FlameSpeed :=
  match m.simulation, m.restart_file with
  | some sim, some sol0 =>
      Except.ok { m with simulation := some { sim with sol := sol0 }, restart := some true }
  | _, _ => Except.error ()

/-- `FlameSpeed.ignore_restart`: set `_restart = None`. -/
def ignore_restart (m : FlameSpeed) : FlameSpeed :=
  { m with restart := none }

/-- The behaviour of the external `solve_adjoint` entry point during one
adjoint-sensitivity call: the sequence of `(parameter sequence index, delta)`
pairs at which the solver invokes the perturbation callback, and the raw
sensitivity array it returns. -/
structure Adjoint where
  calls : List (ℕ × ℚ)
  raw : List ℚ

/-- The perturbation callback `perturb(sim, i, dp)` defined inside
`FlameSpeed.sensitivity`: look up the i-th requested parameter id, read its
current value into `mult_base` (the source reads it but does not use it: the
`mult_base*(1+dp)` expression is commented out), then apply
`perturb_parameter(param_id, 1+dp)` — the absolute value `1+dp`, not a
multiple of the current value.  An out-of-range `i` would raise in Python;
a well-formed solver never passes one. -/
def adjoint_perturb (parameter_list : List ℕ) (m : FlameSpeed) (i : ℕ) (dp : ℚ) : FlameSpeed :=
  match parameter_list.get? i with
  | none => m
  | some param_id =>
    let _mult_base := get_parameter m param_id
    perturb_parameter m param_id (1 + dp)

/-- `FlameSpeed.sensitivity` (the adjoint path, which overrides the base
class finite-difference routine): evaluate once, read the baseline flame
speed `Su0 = sim.u[0]`, build the one-hot objective gradient (the
`Nvars`/`i_Su`/`dgdx` bookkeeping addresses the external solver's unknown
layout and is not modelled), call `solve_adjoint` with the perturbation
callback, divide the returned array by `Su0`, log, and return.  No step
restores the perturbed parameters before returning. -/
def FlameSpeed.sensitivity (o : Solver) (adj : Adjoint) (perturbation : ℚ)
    (parameter_list : List ℕ) (m : FlameSpeed) :
    Except Unit (ℚ × List ℚ) × FlameSpeed :=
  match FlameSpeed.evaluate o m with
  | (Except.error _, m1, _) => (Except.error (), m1)
  | (Except.ok value, m1, _) =>
    match m1.simulation with
    | none => (Except.error (), m1)
    | some sim =>
      let Su0 := sim.sol
      let m2 := adj.calls.foldl (fun acc c => adjoint_perturb parameter_list acc c.1 c.2) m1
      let full_sensitivity := adj.raw.map (fun x => x / Su0)
      (Except.ok (value, full_sensitivity), m2)

/-- Test for a solve-attempt event. -/
def isSolveEv : Ev → Bool
  | Ev.solve _ _ => true
  | _ => false

/-- A concrete mechanism: one plain reaction and one falloff reaction. -/
def mechC : List Reaction :=
  [{ reaction_type := 1, equation := "R0",
     rate := ⟨4, 0, 0⟩, high_rate := ⟨1, 0, 0⟩, low_rate := ⟨1, 0, 0⟩,
     efficiencies := [] },
   rFo]

/-- A concrete model sitting in a sensitivity calculation (`_sens_flag`
set), with live gas and simulation. -/
def mSens : FlameSpeed :=
  { initial := ⟨300, 101325, "X"⟩, chemistry_model := mechC,
    sens_flag := true, no_efficiencies := true, no_energy := true, no_falloff := true,
    model_parameter_info := get_model_parameter_info mechC true true true,
    number_parameters := 2,
    gas := some ⟨mechC, 300, 101325, "X"⟩, reactor := none,
    simulation := some freshFlame,
    loglevel := 1, savefile := "soln.xml", restart := none, restart_file := none }

/-- A concrete model outside any sensitivity calculation, with a recorded
restart (`_restart = True`) and a saved solution in its restart file. -/
def mRestart : FlameSpeed :=
  { mSens with sens_flag := false, restart := some true, restart_file := some 2 }

/-- A concrete cold-start model: no restart recorded, not in sensitivity. -/
def mCold : FlameSpeed :=
  { mSens with sens_flag := false, restart := none, restart_file := none }

/-- A solver oracle whose every attempt fails. -/
def oFail : Solver := ⟨fun _ => false, fun _ => 0⟩

/-- A solver oracle whose every attempt converges to boundary velocity 7. -/
def oHappy : Solver := ⟨fun _ => true, fun _ => 7⟩

/-- A concrete model for exercising the adjoint perturbation callback: like
`mCold` but with its catalog written out literally (the two entries the
all-flags catalog of `mechC` contains). -/
def mAdj : FlameSpeed :=
  { mCold with model_parameter_info :=
      [⟨0, ParamType.A_factor, "R0:A", none⟩,
       ⟨1, ParamType.High_pressure_A, "RF:HpA", none⟩] }

/-- The state a model carries through the base-class finite-difference
`CanteraChemistryModel.sensitivity` routine: the `_sens_flag` field the
routine itself writes, and the rest of the concrete subclass's mutable state
(live chemistry, simulation, restart file, …) as an abstract `τ`. -/
structure SensState (τ : Type) where
  sens_flag : Bool
  rest : τ

/-- The methods the base-class routine dispatches to (`evaluate` is
abstract; `save_restart`/`load_restart` are placeholders meant to be
overridden; `get_parameter`/`perturb_parameter` are concrete but act on the
subclass state).  `evaluate` reads the current `_sens_flag` and returns
`none` in place of raising — together with the state at that moment, since
the Python object keeps the mutations made before the raise.  The other
methods are total state transformers here; their own failure modes (an
out-of-range parameter id raises before mutating anything) add further error
exits of the same shape as an `evaluate` failure. -/
structure SensOps (τ : Type) where
  evaluate : Bool → τ → Option ℚ × τ
  get_parameter : τ → ℕ → ℚ
  perturb_parameter : τ → ℕ → ℚ → τ
  save_restart : τ → τ
  load_restart : τ → τ

/-- The body of the per-parameter loop of
`CanteraChemistryModel.sensitivity`, for one `param_id`:
`mult_base = get_parameter(param_id)`; perturb to `pos_mult*mult_base`,
evaluate (`value+`); perturb to `neg_mult*mult_base`, `load_restart()`,
evaluate (`value-`); perturb back to `mult_base`; record
`(value+ - value-) / (2*perturbation*value)`.  Besides the result and the
state, the third component records the `_sens_flag` value each `evaluate`
call read (the observable the flag claims are about). -/
def sensStep {τ : Type} (M : SensOps τ) (pos_mult neg_mult perturbation value : ℚ)
    (param_id : ℕ) (s : SensState τ) : Option ℚ × SensState τ × List Bool :=
  let mult_base := M.get_parameter s.rest param_id
  let pos_pert := pos_mult * mult_base
  let s1 : SensState τ := { s with rest := M.perturb_parameter s.rest param_id pos_pert }
  match M.evaluate s1.sens_flag s1.rest with
  | (none, t) => (none, { s1 with rest := t }, [s1.sens_flag])
  | (some valuep, t) =>
    let neg_pert := neg_mult * mult_base
    let t2 := M.load_restart (M.perturb_parameter t param_id neg_pert)
    match M.evaluate s1.sens_flag t2 with
    | (none, t3) => (none, { s1 with rest := t3 }, [s1.sens_flag, s1.sens_flag])
    | (some valuem, t3) =>
      let t4 := M.perturb_parameter t3 param_id mult_base
      (some ((valuep - valuem) / (2 * perturbation * value)),
       { s1 with rest := t4 }, [s1.sens_flag, s1.sens_flag])

/-- The per-parameter loop of `CanteraChemistryModel.sensitivity`:
`sensitivity_list` is accumulated in input order; a `none` from a step is a
propagating exception that aborts the loop, keeping the state reached. -/
def sensRun {τ : Type} (M : SensOps τ) (pos_mult neg_mult perturbation value : ℚ) :
    List ℕ → SensState τ → Option (List ℚ) × SensState τ × List Bool
  | [], s => (some [], s, [])
  | param_id :: rest_ids, s =>
    match sensStep M pos_mult neg_mult perturbation value param_id s with
    | (none, s1, fl) => (none, s1, fl)
    | (some sens, s1, fl) =>
      match sensRun M pos_mult neg_mult perturbation value rest_ids s1 with
      | (res, s2, fl2) => (res.map (fun l => sens :: l), s2, fl ++ fl2)

/-- `CanteraChemistryModel.sensitivity`: evaluate once (the baseline),
`save_restart()`, compute `pos_mult = 1 + perturbation` and
`neg_mult = 1/pos_mult`, set `_sens_flag = True`, run the per-parameter
loop, clear `_sens_flag` and return `(value, vector)`.  A `none` result is a
propagating exception; note that on the error path the final
`self._sens_flag = False` assignment is never executed.  The third component
is the `_sens_flag` value read by each `evaluate` call, baseline first.
Logging to the caller's file is not modelled. -/
def CanteraChemistryModel.sensitivity {τ : Type} (M : SensOps τ) (perturbation : ℚ)
    (parameter_list : List ℕ) (s : SensState τ) :
    Option (ℚ × List ℚ) × SensState τ × List Bool :=
  match M.evaluate s.sens_flag s.rest with
  | (none, t) => (none, { s with rest := t }, [s.sens_flag])
  | (some value, t) =>
    let t1 := M.save_restart t
    let pos_mult := 1 + perturbation
    let neg_mult := 1 / pos_mult
    match sensRun M pos_mult neg_mult perturbation value parameter_list
        { sens_flag := true, rest := t1 } with
    | (none, s2, fl) => (none, s2, s.sens_flag :: fl)
    | (some l, s2, fl) => (some (value, l), { s2 with sens_flag := false }, s.sens_flag :: fl)

/-- Written from the claim's wording (C2), for comparison with the source
translation: for one parameter id, read the current value, perturb it to
`value*(1+perturbation_fraction)` and evaluate to get `plus`, perturb it to
`value*(1/(1+perturbation_fraction))`, reload the saved baseline restart
before evaluating to get `minus`, restore the parameter to its original
value, and record `(plus - minus) / (2*perturbation_fraction*baseline)`. -/
def specStep {τ : Type} (M : SensOps τ) (p baseline : ℚ) (t : τ) (param_id : ℕ) :
    Option ℚ × τ :=
  let v := M.get_parameter t param_id
  let ta := M.perturb_parameter t param_id (v * (1 + p))
  match M.evaluate true ta with
  | (none, tb) => (none, tb)
  | (some plus, tb) =>
    let tc := M.load_restart (M.perturb_parameter tb param_id (v * (1 / (1 + p))))
    match M.evaluate true tc with
    | (none, td) => (none, td)
    | (some minus, td) =>
      (some ((plus - minus) / (2 * p * baseline)), M.perturb_parameter td param_id v)

/-- Written from the claim's wording (C2): apply `specStep` to every
parameter id in the caller-supplied order. -/
def specGo {τ : Type} (M : SensOps τ) (p baseline : ℚ) :
    List ℕ → τ → Option (List ℚ) × τ
  | [], t => (some [], t)
  | i :: is, t =>
    match specStep M p baseline t i with
    | (none, t1) => (none, t1)
    | (some c, t1) =>
      match specGo M p baseline is t1 with
      | (res, t2) => (res.map (fun l => c :: l), t2)

/-- Written from the claim's wording (C2): the baseline is evaluated once
before any perturbation and saved as the restart point; the returned vector
pairs that baseline with the per-parameter coefficients in input order. -/
def sensitivitySpec {τ : Type} (M : SensOps τ) (p : ℚ) (ids : List ℕ)
    (s : SensState τ) : Option (ℚ × List ℚ) :=
  match M.evaluate s.sens_flag s.rest with
  | (none, _) => none
  | (some value, t) =>
    match specGo M p value ids (M.save_restart t) with
    | (none, _) => none
    | (some l, _) => some (value, l)

/-- A concrete subclass over state `τ := ℚ` whose `evaluate` returns the
state itself and whose `perturb_parameter` stores the written value. -/
def M2 : SensOps ℚ :=
  { evaluate := fun _ t => (some t, t)
    get_parameter := fun _ _ => 2
    perturb_parameter := fun _ _ v => v
    save_restart := id
    load_restart := id }

/-- A concrete subclass over state `τ := ℚ` whose `evaluate` succeeds on the
initial state 0 and raises on every later state: the baseline evaluation
succeeds and the first in-loop evaluation raises. -/
def M3 : SensOps ℚ :=
  { evaluate := fun _ t => if t = 0 then (some 1, 1) else (none, t)
    get_parameter := fun _ _ => 1
    perturb_parameter := fun t _ _ => t
    save_restart := id
    load_restart := id }

-- ===================================================================
-- Theorems
-- ===================================================================

/-- Helper: filtering distributes over flatMap. -/
theorem filter_flatMap_local {α β : Type} (l : List α) (f : α → List β) (p : β → Bool) :
    (l.flatMap f).filter p = l.flatMap (fun a => (f a).filter p) := by
  induction l with
  | nil => rfl
  | cons a l ih => simp [List.flatMap_cons, List.filter_append, ih]

/-- Helper: with all exclusion flags off, every parameter is kept. -/
theorem keepParam_all_false (p : ParamInfo) : keepParam false false false p = true := by
  simp [keepParam]

/-- Helper: with all three exclusion flags on, the surviving part of a
reaction's catalog fragment is exactly its leading A-type entry. -/
theorem reaction_info_filter_all (i : ℕ) (r : Reaction) :
    (get_reaction_info i r).filter (keepParam true true true) =
      (if hasFalloffOf r then
        [⟨i, ParamType.High_pressure_A, r.equation ++ ":HpA", none⟩]
      else
        [⟨i, ParamType.A_factor, r.equation ++ ":A", none⟩]) := by
  by_cases hf : hasFalloffOf r <;>
    by_cases ht : hasThirdBodyOf r <;>
      by_cases h1 : (1/10 : ℚ) < |r.high_rate.activation_energy| <;>
        by_cases h2 : (1/10 : ℚ) < |r.low_rate.activation_energy| <;>
          by_cases h3 : (1/10 : ℚ) < |r.rate.activation_energy| <;>
            simp [get_reaction_info, hf, ht, h1, h2, h3, List.filter_append,
                  keepParam, List.filter_map]

/-- C6: for every mechanism, the catalog built with
`no_efficiencies = no_energy = no_falloff = True` is no longer than the
unfiltered catalog, and consists of exactly one entry per reaction: the
`High_pressure_A` entry of each falloff-classified reaction and the
`A_factor` entry of each other reaction — in particular no Energy,
Low-pressure, High-pressure-E, or Efficiency entries survive. -/
theorem catalog_all_exclusions (mech : List Reaction) :
    (get_model_parameter_info mech true true true).length ≤
      (get_model_parameter_info mech false false false).length ∧
    get_model_parameter_info mech true true true =
      mech.enum.flatMap (fun x =>
        if hasFalloffOf x.2 then
          [⟨x.1, ParamType.High_pressure_A, x.2.equation ++ ":HpA", none⟩]
        else
          [⟨x.1, ParamType.A_factor, x.2.equation ++ ":A", none⟩]) := by
  constructor
  · have h2 : get_model_parameter_info mech false false false =
        mech.enum.flatMap fun x => get_reaction_info x.1 x.2 := by
      unfold get_model_parameter_info
      exact List.filter_eq_self.mpr (fun a _ => keepParam_all_false a)
    rw [h2]
    exact List.length_filter_le _ _
  · unfold get_model_parameter_info
    rw [filter_flatMap_local]
    have h : (fun x : ℕ × Reaction =>
        (get_reaction_info x.1 x.2).filter (keepParam true true true)) =
        (fun x : ℕ × Reaction =>
          if hasFalloffOf x.2 then
            ([⟨x.1, ParamType.High_pressure_A, x.2.equation ++ ":HpA", none⟩] : List ParamInfo)
          else
            [⟨x.1, ParamType.A_factor, x.2.equation ++ ":A", none⟩]) := by
      funext x
      exact reaction_info_filter_all x.1 x.2
    rw [h]

/-- C1 (code bug): on the concrete falloff reaction `rFo` (high A = 2,
low A = 5) with `no_falloff` set, writing `High_pressure_A := 6` leaves the
low-pressure A at its original value 5, because the source computes the
perturbation ratio as `new_value/A` only AFTER executing `A = new_value`, so
the ratio is always 1.  The claim (and the source's own comment "We need to
know what the perturbation is") requires the ratio new/old = 6/2 = 3 and a
resulting low-pressure A of 15. -/
theorem highA_lockstep_failure :
    (perturb_reaction true ParamType.High_pressure_A 6 rFo).high_rate.pre_exponential_factor = 6 ∧
    (perturb_reaction true ParamType.High_pressure_A 6 rFo).low_rate.pre_exponential_factor = 5 ∧
    (6 / 2 : ℚ) * 5 = 15 ∧ (5 : ℚ) ≠ 15 := by
  refine ⟨?_, ?_, by norm_num, by norm_num⟩ <;>
    norm_num [perturb_reaction, rFo, hasPressure, hasHigh, hasLow, hasA, hasE]

/-- C5 (code bug): the concrete type-8 reaction `r8` carries a strictly
positive third-body efficiency for species "AR", yet `get_reaction_info`
emits no Efficiency descriptor for it, because the source's type-8 case
assigns the misspelled variable `HasThirdbody` and so never sets
`HasThirdBody`.  (For types 2 and 4 the Efficiency entries are emitted.) -/
theorem type8_efficiencies_missing :
    r8.reaction_type = 8 ∧
    r8.efficiencies = [("AR", 1)] ∧ (0 : ℚ) < 1 ∧
    (get_reaction_info 0 r8).filter
      (fun p => p.parameter_type == ParamType.Efficiency) = [] ∧
    (get_reaction_info 0 { r8 with reaction_type := 2 }).filter
      (fun p => p.parameter_type == ParamType.Efficiency) =
      [⟨0, ParamType.Efficiency, "R8:Eff:AR", some "AR"⟩] := by
  refine ⟨rfl, rfl, by norm_num, ?_, ?_⟩ <;>
    norm_num [get_reaction_info, r8, hasThirdBodyOf, hasFalloffOf, List.filter] <;> decide

/-- C8 counterexample: with `no_falloff` set, writing `High_pressure_E := 9`
on the concrete falloff reaction `rFo` (whose low-pressure activation energy
is 7) ALSO overwrites the low-pressure activation energy with 9, because
`PerturbLow` is forced by the `no_falloff` flag and the low-pressure branch
then executes its own `E = new_value`.  This contradicts the claim's
"regardless of the no_falloff flag … leaves the other branch's rate
parameters unchanged". -/
theorem high_E_couples_low_E :
    (perturb_reaction true ParamType.High_pressure_E 9 rFo).low_rate.activation_energy = 9 ∧
    rFo.low_rate.activation_energy = 7 ∧ (9 : ℚ) ≠ 7 := by
  refine ⟨rfl, rfl, by norm_num⟩

/-- C8 amended: when `no_falloff` is False (the only configuration in which
branch-specific activation-energy parameters appear in the catalog), writing
`High_pressure_E` sets only the high-pressure activation energy and leaves
the low-pressure rate and the plain rate untouched; writing `Low_pressure_E`
behaves symmetrically for EITHER value of `no_falloff`.  With `no_falloff`
True, writing `High_pressure_E` would additionally overwrite the low-pressure
activation energy (see the counterexample), but such parameter ids are
excluded from the catalog by the `no_falloff` filter. -/
theorem energy_perturb_frame (r : Reaction) (nv : ℚ) :
    ((perturb_reaction false ParamType.High_pressure_E nv r).high_rate.activation_energy = nv ∧
     (perturb_reaction false ParamType.High_pressure_E nv r).high_rate.pre_exponential_factor =
       r.high_rate.pre_exponential_factor ∧
     (perturb_reaction false ParamType.High_pressure_E nv r).high_rate.temperature_exponent =
       r.high_rate.temperature_exponent ∧
     (perturb_reaction false ParamType.High_pressure_E nv r).low_rate = r.low_rate ∧
     (perturb_reaction false ParamType.High_pressure_E nv r).rate = r.rate) ∧
    (∀ nf : Bool,
     (perturb_reaction nf ParamType.Low_pressure_E nv r).low_rate.activation_energy = nv ∧
     (perturb_reaction nf ParamType.Low_pressure_E nv r).low_rate.pre_exponential_factor =
       r.low_rate.pre_exponential_factor ∧
     (perturb_reaction nf ParamType.Low_pressure_E nv r).low_rate.temperature_exponent =
       r.low_rate.temperature_exponent ∧
     (perturb_reaction nf ParamType.Low_pressure_E nv r).high_rate = r.high_rate ∧
     (perturb_reaction nf ParamType.Low_pressure_E nv r).rate = r.rate) ∧
    (perturb_reaction true ParamType.High_pressure_E nv r).low_rate.activation_energy = nv := by
  refine ⟨⟨rfl, rfl, rfl, rfl, rfl⟩, fun nf => ?_, rfl⟩
  cases nf <;> exact ⟨rfl, rfl, rfl, rfl, rfl⟩

/-- Helper: `perturb_parameter` returns the model with (at most) its gas
replaced; every other field is untouched. -/
theorem perturb_parameter_gas_only (m : FlameSpeed) (i : ℕ) (nv : ℚ) :
    ∃ og, perturb_parameter m i nv = { m with gas := og } := by
  unfold perturb_parameter
  split <;> first
    | exact ⟨_, rfl⟩
    | (split <;> exact ⟨_, rfl⟩)

/-- Helper: a whole sequence of perturbations preserves the mechanism
definition, the initial state and the catalog. -/
theorem applyPerturbs_preserves (ps : List (ℕ × ℚ)) (m : FlameSpeed) :
    (applyPerturbs ps m).chemistry_model = m.chemistry_model ∧
    (applyPerturbs ps m).initial = m.initial ∧
    (applyPerturbs ps m).model_parameter_info = m.model_parameter_info := by
  induction ps generalizing m with
  | nil => exact ⟨rfl, rfl, rfl⟩
  | cons p ps ih =>
    obtain ⟨og, hg⟩ := perturb_parameter_gas_only m p.1 p.2
    have h2 := ih (perturb_parameter m p.1 p.2)
    refine ⟨?_, ?_, ?_⟩
    · show (applyPerturbs ps (perturb_parameter m p.1 p.2)).chemistry_model = m.chemistry_model
      rw [h2.1, hg]
    · show (applyPerturbs ps (perturb_parameter m p.1 p.2)).initial = m.initial
      rw [h2.2.1, hg]
    · show (applyPerturbs ps (perturb_parameter m p.1 p.2)).model_parameter_info =
        m.model_parameter_info
      rw [h2.2.2, hg]

/-- C9: `reset_model` is definitionally `blank_chemistry` followed by
`initialize_chemistry`; and after any sequence of `perturb_parameter` calls
on an initialized freshly-constructed model, `reset_model` brings every
parameter back to the value read on the freshly constructed (and
initialized) mechanism: all perturbations are discarded, because resetting
re-creates the gas from the pristine mechanism definition. -/
theorem reset_model_round_trip (T Patm : ℚ) (comp : String) (mech : List Reaction)
    (ne nen nf : Bool) (lg : ℕ) (nm : String) (ps : List (ℕ × ℚ)) (i : ℕ) :
    (∀ m : FlameSpeed, reset_model m = initialize_chemistry (blank_chemistry m)) ∧
    get_parameter
      (reset_model (applyPerturbs ps
        (initialize_chemistry (FlameSpeed.construct T Patm comp mech ne nen nf lg nm)))) i =
    get_parameter
      (initialize_chemistry (FlameSpeed.construct T Patm comp mech ne nen nf lg nm)) i := by
  refine ⟨fun m => rfl, ?_⟩
  set m0 := FlameSpeed.construct T Patm comp mech ne nen nf lg nm with hm0
  set m1 := initialize_chemistry m0 with hm1
  set m2 := applyPerturbs ps m1 with hm2
  have hpres := applyPerturbs_preserves ps m1
  have hcm : m2.chemistry_model = m0.chemistry_model := hpres.1
  have hinit : m2.initial = m0.initial := hpres.2.1
  have h1 : (reset_model m2).gas =
      some ⟨m2.chemistry_model, m2.initial.T, m2.initial.P, m2.initial.composition⟩ := rfl
  have h2 : m1.gas =
      some ⟨m0.chemistry_model, m0.initial.T, m0.initial.P, m0.initial.composition⟩ := rfl
  have hgas : (reset_model m2).gas = m1.gas := by rw [h1, h2, hcm, hinit]
  have hinfo : (reset_model m2).model_parameter_info = m1.model_parameter_info := hpres.2.2
  unfold get_parameter
  rw [hgas, hinfo]

/-- Helper: the events of a retried stage. -/
theorem solveRetry_events (o : Solver) (n : ℕ) (rg : Bool) (sim : Simulation) :
    (solveRetry o n rg sim).2.2 = retryEvs o n rg := by
  by_cases h1 : o.ok n <;> by_cases h2 : o.ok (n + 1) <;>
    simp [solveRetry, solveAttempt, retryEvs, h1, h2]

/-- Helper: the attempt counter after a retried stage. -/
theorem solveRetry_next (o : Solver) (n : ℕ) (rg : Bool) (sim : Simulation) :
    (solveRetry o n rg sim).2.1 = retryNext o n := by
  by_cases h1 : o.ok n <;> by_cases h2 : o.ok (n + 1) <;>
    simp [solveRetry, solveAttempt, retryNext, h1, h2]

/-- Helper: the events of a single-attempt stage. -/
theorem solveOnceCaught_events (o : Solver) (n : ℕ) (rg : Bool) (sim : Simulation) :
    (solveOnceCaught o n rg sim).2.2 = onceEvs o n rg := by
  by_cases h1 : o.ok n <;> simp [solveOnceCaught, solveAttempt, onceEvs, h1]

/-- Helper: a retried stage emits no restore event. -/
theorem retryEvs_no_restore (o : Solver) (n : ℕ) (rg : Bool) (f nm2 : String) :
    Ev.restore f nm2 ∉ retryEvs o n rg := by
  by_cases h1 : o.ok n <;> by_cases h2 : o.ok (n + 1) <;> simp [retryEvs, h1, h2]

/-- Helper: a single-attempt stage emits no restore event. -/
theorem onceEvs_no_restore (o : Solver) (n : ℕ) (rg : Bool) (f nm2 : String) :
    Ev.restore f nm2 ∉ onceEvs o n rg := by
  by_cases h1 : o.ok n <;> simp [onceEvs, h1]

/-- Helper: in the cold-start case, `evaluate` returns normally and its trace
is the three-stage continuation trace. -/
theorem evaluate_cold (o : Solver) (m : FlameSpeed)
    (h1 : m.restart = none) (h2 : m.sens_flag = false) :
    (FlameSpeed.evaluate o m).2.2 =
      Ev.msg msg_stage1 :: retryEvs o 0 false ++
      Ev.msg msg_stage2 :: retryEvs o (retryNext o 0) true ++
      Ev.msg msg_stage3 :: onceEvs o (retryNext o (retryNext o 0)) true ∧
    ∃ v, (FlameSpeed.evaluate o m).1 = Except.ok v := by
  rcases hg : m.gas with _ | g <;> rcases hs : m.simulation with _ | sim <;>
    simp [FlameSpeed.evaluate, hg, hs, initialize_chemistry, initialize_reactor,
          h1, h2, solveRetry_events, solveRetry_next, solveOnceCaught_events]

/-- Helper: in the sensitivity case, `evaluate` makes a single unguarded
solve attempt and propagates its failure. -/
theorem evaluate_sens (o : Solver) (m : FlameSpeed) (h : m.sens_flag = true) :
    (FlameSpeed.evaluate o m).2.2 = [Ev.solve false (o.ok 0)] ∧
    ((FlameSpeed.evaluate o m).1 = Except.error () ↔ o.ok 0 = false) := by
  rcases hg : m.gas with _ | g <;> rcases hs : m.simulation with _ | sim <;>
    by_cases h0 : o.ok 0 <;>
      simp [FlameSpeed.evaluate, hg, hs, initialize_chemistry, initialize_reactor,
            h, solveAttempt, h0]

/-- Helper: in the restart case with a saved solution, `evaluate` restores
the named solution and makes a single caught solve attempt. -/
theorem evaluate_restart (o : Solver) (m : FlameSpeed) (b : Bool) (sol0 : ℚ)
    (hr : m.restart = some b) (h2 : m.sens_flag = false)
    (hf : m.restart_file = some sol0) :
    (FlameSpeed.evaluate o m).2.2 =
      Ev.restore m.savefile restartName :: onceEvs o 0 false ∧
    ∃ v, (FlameSpeed.evaluate o m).1 = Except.ok v := by
  rcases hg : m.gas with _ | g <;> rcases hs : m.simulation with _ | sim <;>
    simp [FlameSpeed.evaluate, hg, hs, initialize_chemistry, initialize_reactor,
          hr, h2, hf, solveOnceCaught_events]

/-- C4 counterexample: with `_sens_flag` set and a failing solver, the solve
exception propagates out of `FlameSpeed.evaluate` — the sensitivity-branch
solve call has no try/except around it, refuting "never propagates out of
evaluate()". -/
theorem evaluate_sens_solve_uncaught :
    (FlameSpeed.evaluate oFail mSens).1 = Except.error () := rfl

/-- C4 amended: solver exceptions are caught (and logged) in the cold-start
and restart-load paths of `FlameSpeed.evaluate`, whose results are always
normal returns; in the cold-start path stages one and two retry exactly once
after a failure and stage three attempts once with no retry, and the
restart-load path attempts once with no retry.  But in the
sensitivity-in-progress path the single solve attempt is unguarded: its
exception propagates out of `evaluate` (it errors exactly when that attempt
fails). -/
theorem evaluate_exception_policy (o : Solver) (m : FlameSpeed) :
    (m.restart = none → m.sens_flag = false →
      (∃ v, (FlameSpeed.evaluate o m).1 = Except.ok v) ∧
      (FlameSpeed.evaluate o m).2.2 =
        Ev.msg msg_stage1 :: retryEvs o 0 false ++
        Ev.msg msg_stage2 :: retryEvs o (retryNext o 0) true ++
        Ev.msg msg_stage3 :: onceEvs o (retryNext o (retryNext o 0)) true) ∧
    (m.sens_flag = true →
      (FlameSpeed.evaluate o m).2.2 = [Ev.solve false (o.ok 0)] ∧
      ((FlameSpeed.evaluate o m).1 = Except.error () ↔ o.ok 0 = false)) ∧
    (∀ b sol0, m.restart = some b → m.sens_flag = false → m.restart_file = some sol0 →
      (∃ v, (FlameSpeed.evaluate o m).1 = Except.ok v) ∧
      (FlameSpeed.evaluate o m).2.2 =
        Ev.restore m.savefile restartName :: onceEvs o 0 false) := by
  refine ⟨fun h1 h2 => ⟨(evaluate_cold o m h1 h2).2, (evaluate_cold o m h1 h2).1⟩,
          fun h => evaluate_sens o m h,
          fun b sol0 hr h2 hf => ⟨(evaluate_restart o m b sol0 hr h2 hf).2,
                                  (evaluate_restart o m b sol0 hr h2 hf).1⟩⟩

/-- C4 witness: the amended theorem applied to the concrete cold-start model
`mCold` with the always-convergent solver. -/
theorem evaluate_exception_policy_witness :
    (∃ v, (FlameSpeed.evaluate oHappy mCold).1 = Except.ok v) ∧
    (FlameSpeed.evaluate oHappy mCold).2.2 =
      Ev.msg msg_stage1 :: retryEvs oHappy 0 false ++
      Ev.msg msg_stage2 :: retryEvs oHappy (retryNext oHappy 0) true ++
      Ev.msg msg_stage3 :: onceEvs oHappy (retryNext oHappy (retryNext oHappy 0)) true :=
  (evaluate_exception_policy oHappy mCold).1 rfl rfl

/-- C7: `save_restart` and `load_restart`, when they succeed, leave
`_restart = True` (and transfer the solution to/from the named restart
file); `ignore_restart` sets `_restart = None`.  When `_restart` is None and
`_sens_flag` is off, `evaluate` takes the cold-start three-stage continuation
path: its trace shows all three stage banners and contains no restore event.
When `_restart` is True (any recorded value) and `_sens_flag` is off,
`evaluate` restores the solution named 'restart' from the model's save file
and makes exactly one solve attempt, with grid refinement disabled. -/
theorem restart_flag_policy (o : Solver) (m : FlameSpeed) :
    (∀ sim, m.simulation = some sim →
      save_restart m =
        Except.ok { m with restart_file := some sim.sol, restart := some true }) ∧
    (∀ sim sol0, m.simulation = some sim → m.restart_file = some sol0 →
      load_restart m =
        Except.ok { m with simulation := some { sim with sol := sol0 },
                           restart := some true }) ∧
    (ignore_restart m).restart = none ∧
    (m.restart = none → m.sens_flag = false →
      Ev.msg msg_stage1 ∈ (FlameSpeed.evaluate o m).2.2 ∧
      Ev.msg msg_stage2 ∈ (FlameSpeed.evaluate o m).2.2 ∧
      Ev.msg msg_stage3 ∈ (FlameSpeed.evaluate o m).2.2 ∧
      ∀ f nm2, Ev.restore f nm2 ∉ (FlameSpeed.evaluate o m).2.2) ∧
    (∀ b sol0, m.restart = some b → m.sens_flag = false → m.restart_file = some sol0 →
      (FlameSpeed.evaluate o m).2.2 =
        Ev.restore m.savefile restartName :: onceEvs o 0 false ∧
      ((FlameSpeed.evaluate o m).2.2.filter isSolveEv) = [Ev.solve false (o.ok 0)]) := by
  refine ⟨?_, ?_, rfl, ?_, ?_⟩
  · intro sim hsim
    simp [save_restart, hsim]
  · intro sim sol0 hsim hf
    simp [load_restart, hsim, hf]
  · intro h1 h2
    obtain ⟨htr, -⟩ := evaluate_cold o m h1 h2
    rw [htr]
    refine ⟨by simp, by simp, by simp, ?_⟩
    intro f nm2
    simp [retryEvs_no_restore o 0 false f nm2,
          retryEvs_no_restore o (retryNext o 0) true f nm2,
          onceEvs_no_restore o (retryNext o (retryNext o 0)) true f nm2]
  · intro b sol0 hr h2 hf
    obtain ⟨htr, -⟩ := evaluate_restart o m b sol0 hr h2 hf
    refine ⟨htr, ?_⟩
    rw [htr]
    by_cases h0 : o.ok 0 <;> simp [onceEvs, isSolveEv, h0]

/-- C7 witness: the theorem applied to the concrete restart-carrying model
`mRestart` with the always-convergent solver. -/
theorem restart_flag_policy_witness :
    (FlameSpeed.evaluate oHappy mRestart).2.2 =
      Ev.restore mRestart.savefile restartName :: onceEvs oHappy 0 false ∧
    ((FlameSpeed.evaluate oHappy mRestart).2.2.filter isSolveEv) =
      [Ev.solve false (oHappy.ok 0)] :=
  (restart_flag_policy oHappy mRestart).2.2.2.2 true 2 rfl rfl rfl

/-- Helper: after `perturb_parameter` writes `nv` into a valid catalog
parameter, `get_parameter` reads back exactly `nv` — for every one of the
seven parameter types the member of the rate triple that `perturb_parameter`
assigns is the one `get_parameter` reads. -/
theorem get_parameter_after_perturb (m : FlameSpeed) (pid : ℕ) (nv : ℚ)
    (g : Gas) (info : ParamInfo) (r : Reaction)
    (hg : m.gas = some g) (hi : m.model_parameter_info.get? pid = some info)
    (hr : g.reactions.get? info.reaction_number = some r) :
    get_parameter (perturb_parameter m pid nv) pid = some nv := by
  have hlt : info.reaction_number < g.reactions.length :=
    List.get?_eq_some.mp hr |>.choose
  have hset : (g.reactions.set info.reaction_number
      (perturb_reaction m.no_falloff info.parameter_type nv r)).get?
        info.reaction_number
      = some (perturb_reaction m.no_falloff info.parameter_type nv r) := by
    simpa using List.getElem?_set_eq_of_lt
      (perturb_reaction m.no_falloff info.parameter_type nv r) hlt
  unfold perturb_parameter
  simp only [hg, hi, hr]
  unfold get_parameter
  simp only [hi, hset]
  rcases info with ⟨rn, pt, pname, sp⟩
  cases pt <;>
    simp [perturb_reaction, hasPressure, hasHigh, hasLow, hasA, hasE] <;>
    split <;> rfl

/-- C10: in the adjoint path of `FlameSpeed.sensitivity`, the perturbation
callback handed to `solve_adjoint` sets the selected parameter to the
absolute value `1 + dp`, independent of the parameter's current magnitude
(the callback reads the current value into `mult_base` but never uses it);
and after `solve_adjoint` returns, `sensitivity` performs no restoring
writes: its final state is exactly the baseline state folded through the
callback invocations, and its result is the raw adjoint vector divided by
the baseline flame-speed unknown `Su0`. -/
theorem adjoint_callback_absolute (o : Solver) (adj : Adjoint) (p : ℚ)
    (ids : List ℕ) (m : FlameSpeed) (i pid : ℕ) (dp : ℚ)
    (g : Gas) (info : ParamInfo) (r : Reaction)
    (hpid : ids.get? i = some pid) (hg : m.gas = some g)
    (hi : m.model_parameter_info.get? pid = some info)
    (hr : g.reactions.get? info.reaction_number = some r) :
    get_parameter (adjoint_perturb ids m i dp) pid = some (1 + dp) ∧
    (∀ v m1 evs sim, FlameSpeed.evaluate o m = (Except.ok v, m1, evs) →
        m1.simulation = some sim →
        FlameSpeed.sensitivity o adj p ids m =
          (Except.ok (v, adj.raw.map (fun x => x / sim.sol)),
           adj.calls.foldl (fun acc c => adjoint_perturb ids acc c.1 c.2) m1)) := by
  constructor
  · unfold adjoint_perturb
    rw [hpid]
    exact get_parameter_after_perturb m pid (1 + dp) g info r hg hi hr
  · intro v m1 evs sim hev hsim
    unfold FlameSpeed.sensitivity
    rw [hev]
    simp [hsim]

/-- C10 witness: the theorem applied to the concrete model `mAdj`, parameter
list `[0]` and delta 1/2: the callback leaves the parameter at the absolute
value 3/2. -/
theorem adjoint_callback_absolute_witness :
    get_parameter (adjoint_perturb [0] mAdj 0 (1/2)) 0 = some (1 + 1/2) :=
  (adjoint_callback_absolute oHappy ⟨[], []⟩ 1 [0] mAdj 0 0 (1/2)
    ⟨mechC, 300, 101325, "X"⟩ ⟨0, ParamType.A_factor, "R0:A", none⟩
    (mechC.get ⟨0, by norm_num [mechC]⟩) rfl rfl rfl rfl).1

/-- Helper: one loop iteration of the source routine agrees with the
claim-side step (the two differ only in the order of the multiplications
`pos_mult*mult_base` versus `value*(1+p)`), provided the flag is set, as it
is throughout the loop. -/
theorem sensStep_eq_specStep {τ : Type} (M : SensOps τ) (p value : ℚ) (i : ℕ)
    (s : SensState τ) (hs : s.sens_flag = true) :
    (sensStep M (1 + p) (1 / (1 + p)) p value i s).1 = (specStep M p value s.rest i).1 ∧
    (sensStep M (1 + p) (1 / (1 + p)) p value i s).2.1.rest = (specStep M p value s.rest i).2 ∧
    (sensStep M (1 + p) (1 / (1 + p)) p value i s).2.1.sens_flag = true := by
  have hmb1 : M.get_parameter s.rest i * (1 + p) = (1 + p) * M.get_parameter s.rest i :=
    mul_comm _ _
  have hmb2 : M.get_parameter s.rest i * (1 / (1 + p)) =
      (1 / (1 + p)) * M.get_parameter s.rest i := mul_comm _ _
  unfold sensStep specStep
  dsimp only
  rw [hs, hmb1, hmb2]
  rcases h1 : M.evaluate true
      (M.perturb_parameter s.rest i ((1 + p) * M.get_parameter s.rest i)) with ⟨o1, t⟩
  cases o1 with
  | none => exact ⟨rfl, rfl, rfl⟩
  | some valuep =>
    dsimp only
    rcases h2 : M.evaluate true
        (M.load_restart (M.perturb_parameter t i
          ((1 / (1 + p)) * M.get_parameter s.rest i))) with ⟨o2, t3⟩
    cases o2 with
    | none => exact ⟨rfl, rfl, rfl⟩
    | some valuem => exact ⟨rfl, rfl, rfl⟩

/-- Helper: the whole loop of the source routine agrees with the claim-side
loop, and keeps the flag set. -/
theorem sensRun_eq_specGo {τ : Type} (M : SensOps τ) (p value : ℚ) (ids : List ℕ) :
    ∀ (s : SensState τ), s.sens_flag = true →
      (sensRun M (1 + p) (1 / (1 + p)) p value ids s).1 = (specGo M p value ids s.rest).1 ∧
      (sensRun M (1 + p) (1 / (1 + p)) p value ids s).2.1.rest =
        (specGo M p value ids s.rest).2 ∧
      (sensRun M (1 + p) (1 / (1 + p)) p value ids s).2.1.sens_flag = true := by
  induction ids with
  | nil => exact fun s hs => ⟨rfl, rfl, hs⟩
  | cons i is ih =>
    intro s hs
    obtain ⟨e1, e2, e3⟩ := sensStep_eq_specStep M p value i s hs
    simp only [sensRun, specGo]
    rcases hstep : sensStep M (1 + p) (1 / (1 + p)) p value i s with ⟨oc, s1, fl⟩
    rcases hspec : specStep M p value s.rest i with ⟨oc2, t1⟩
    rw [hstep] at e1 e2 e3
    rw [hspec] at e1 e2
    dsimp only at e1 e2 e3
    subst e1
    cases oc with
    | none => exact ⟨rfl, e2, e3⟩
    | some c =>
      dsimp only
      obtain ⟨f1, f2, f3⟩ := ih s1 e3
      rw [e2] at f1 f2
      rcases hrun : sensRun M (1 + p) (1 / (1 + p)) p value is s1 with ⟨res, s2, fl2⟩
      rcases hgo : specGo M p value is t1 with ⟨res2, t2⟩
      rw [hrun] at f1 f2 f3
      rw [hgo] at f1 f2
      dsimp only at f1 f2 f3
      subst f1
      exact ⟨rfl, f2, f3⟩

/-- Helper: a successful claim-side loop emits one coefficient per requested
parameter id. -/
theorem specGo_length {τ : Type} (M : SensOps τ) (p value : ℚ) (ids : List ℕ) :
    ∀ (t : τ) (l : List ℚ), (specGo M p value ids t).1 = some l →
      l.length = ids.length := by
  induction ids with
  | nil =>
    intro t l h
    simp only [specGo] at h
    cases h
    rfl
  | cons i is ih =>
    intro t l h
    simp only [specGo] at h
    rcases hspec : specStep M p value t i with ⟨oc, t1⟩
    rw [hspec] at h
    cases oc with
    | none => exact absurd h (by simp)
    | some c =>
      dsimp only at h
      rcases hgo : (specGo M p value is t1).1 with _ | l2
      · rw [hgo] at h
        exact absurd h (by simp)
      · rw [hgo] at h
        have h2 : l = c :: l2 := by simpa using h.symm
        subst h2
        simp [ih t1 l2 hgo]

/-- Helper: every flag value `sensStep` hands to `evaluate` is the entering
flag, and the step leaves the flag unchanged. -/
theorem sensStep_flags {τ : Type} (M : SensOps τ) (pm nm2 p value : ℚ) (i : ℕ)
    (s : SensState τ) :
    (∀ b ∈ (sensStep M pm nm2 p value i s).2.2, b = s.sens_flag) ∧
    (sensStep M pm nm2 p value i s).2.1.sens_flag = s.sens_flag := by
  unfold sensStep
  dsimp only
  rcases h1 : M.evaluate s.sens_flag
      (M.perturb_parameter s.rest i (pm * M.get_parameter s.rest i)) with ⟨o1, t⟩
  cases o1 with
  | none => simp
  | some valuep =>
    dsimp only
    rcases h2 : M.evaluate s.sens_flag
        (M.load_restart (M.perturb_parameter t i
          (nm2 * M.get_parameter s.rest i))) with ⟨o2, t3⟩
    cases o2 with
    | none => simp
    | some valuem => simp

/-- Helper: the loop hands `evaluate` only the entering flag value and never
changes the flag. -/
theorem sensRun_flags {τ : Type} (M : SensOps τ) (pm nm2 p value : ℚ) (ids : List ℕ) :
    ∀ (s : SensState τ),
      (∀ b ∈ (sensRun M pm nm2 p value ids s).2.2, b = s.sens_flag) ∧
      (sensRun M pm nm2 p value ids s).2.1.sens_flag = s.sens_flag := by
  induction ids with
  | nil => intro s; simp [sensRun]
  | cons i is ih =>
    intro s
    obtain ⟨g1, g2⟩ := sensStep_flags M pm nm2 p value i s
    simp only [sensRun]
    rcases hstep : sensStep M pm nm2 p value i s with ⟨oc, s1, fl⟩
    rw [hstep] at g1 g2
    dsimp only at g1 g2
    cases oc with
    | none => exact ⟨g1, g2⟩
    | some c =>
      dsimp only
      obtain ⟨k1, k2⟩ := ih s1
      rcases hrun : sensRun M pm nm2 p value is s1 with ⟨res, s2, fl2⟩
      rw [hrun] at k1 k2
      dsimp only at k1 k2
      constructor
      · intro b hb
        rcases List.mem_append.mp hb with hb1 | hb2
        · exact g1 b hb1
        · exact (k1 b hb2).trans g2
      · exact k2.trans g2

/-- C2: the finite-difference `CanteraChemistryModel.sensitivity` routine
computes exactly what the claim describes: its result equals the claim-side
routine `sensitivitySpec` (for each parameter id, in input order: read the
current value, perturb to `value*(1+p)`, evaluate for `plus`; perturb to
`value*(1/(1+p))`, reload the saved baseline restart, evaluate for `minus`;
restore the original value; record `(plus-minus)/(2*p*baseline)`), and any
successful result pairs a vector with one entry per requested id with the
baseline value obtained from the single evaluation performed before any
perturbation. -/
theorem sensitivity_follows_spec {τ : Type} (M : SensOps τ) (p : ℚ) (ids : List ℕ)
    (s : SensState τ) :
    (CanteraChemistryModel.sensitivity M p ids s).1 = sensitivitySpec M p ids s ∧
    (∀ v l, (CanteraChemistryModel.sensitivity M p ids s).1 = some (v, l) →
      l.length = ids.length ∧ (M.evaluate s.sens_flag s.rest).1 = some v) := by
  unfold CanteraChemistryModel.sensitivity sensitivitySpec
  rcases hbase : M.evaluate s.sens_flag s.rest with ⟨ob, t⟩
  cases ob with
  | none =>
    refine ⟨rfl, ?_⟩
    intro v l h
    exact absurd h (by simp)
  | some value =>
    dsimp only
    obtain ⟨q1, q2, q3⟩ :=
      sensRun_eq_specGo M p value ids ⟨true, M.save_restart t⟩ rfl
    rcases hrun : sensRun M (1 + p) (1 / (1 + p)) p value ids
        ⟨true, M.save_restart t⟩ with ⟨res, s2, fl⟩
    rcases hgo : specGo M p value ids (M.save_restart t) with ⟨res2, t2⟩
    rw [hrun] at q1 q2 q3
    rw [hgo] at q1 q2
    dsimp only at q1 q2 q3
    subst q1
    cases res with
    | none =>
      refine ⟨rfl, ?_⟩
      intro v l h
      exact absurd h (by simp)
    | some l0 =>
      refine ⟨rfl, ?_⟩
      intro v l h
      injection h with h12
      have hval : value = v := congrArg Prod.fst h12
      have hl : l0 = l := congrArg Prod.snd h12
      subst hval
      subst hl
      exact ⟨specGo_length M p value ids (M.save_restart t) l0 (by rw [hgo]), rfl⟩

/-- C2 witness: the theorem applied to the concrete subclass `M2` with
perturbation 1 and parameter list `[3]` from baseline state 5: the run
succeeds with vector `[3/10]` (one entry per id) and the baseline 5 read
before any perturbation. -/
theorem sensitivity_follows_spec_witness :
    ([(3/10 : ℚ)]).length = ([3] : List ℕ).length ∧
    (M2.evaluate false (5 : ℚ)).1 = some 5 :=
  (sensitivity_follows_spec M2 1 [3] ⟨false, 5⟩).2 5 [3/10]
    (by norm_num [CanteraChemistryModel.sensitivity, sensRun, sensStep, M2])

/-- C3 counterexample: on the concrete subclass `M3`, whose baseline
evaluation succeeds and whose first in-loop evaluation raises, the exception
propagates out of `CanteraChemistryModel.sensitivity` with `_sens_flag`
still True: the routine has no try/finally, so the flag is NOT cleared on
the error exit path, refuting "is cleared back to False on every exit
path". -/
theorem sens_flag_stuck_on_error :
    (CanteraChemistryModel.sensitivity M3 1 [0] ⟨false, 0⟩).1 = none ∧
    (CanteraChemistryModel.sensitivity M3 1 [0] ⟨false, 0⟩).2.1.sens_flag = true := by
  constructor <;>
    norm_num [CanteraChemistryModel.sensitivity, sensRun, sensStep, M3]

/-- C3 amended: `_sens_flag` is False on a freshly constructed model; while
the per-parameter loop runs, every `evaluate` call reads the flag as True
(all trace entries after the baseline's); the flag is cleared back to False
on normal completion; but on an error exit it is NOT cleared: an error
propagating from within the loop leaves it True (see the counterexample),
and an error in the baseline evaluation leaves it unchanged. -/
theorem sens_flag_lifecycle {τ : Type} (M : SensOps τ) (p : ℚ) (ids : List ℕ)
    (s : SensState τ) (T Patm : ℚ) (comp : String) (mech : List Reaction)
    (ne nen nf : Bool) (lg : ℕ) (nm : String) :
    (FlameSpeed.construct T Patm comp mech ne nen nf lg nm).sens_flag = false ∧
    (∀ b ∈ ((CanteraChemistryModel.sensitivity M p ids s).2.2).tail, b = true) ∧
    (∀ r s2 fl, CanteraChemistryModel.sensitivity M p ids s = (some r, s2, fl) →
      s2.sens_flag = false) ∧
    (∀ v t, M.evaluate s.sens_flag s.rest = (some v, t) →
      ∀ s2 fl, CanteraChemistryModel.sensitivity M p ids s = (none, s2, fl) →
        s2.sens_flag = true) ∧
    (∀ t, M.evaluate s.sens_flag s.rest = (none, t) →
      (CanteraChemistryModel.sensitivity M p ids s).2.1.sens_flag = s.sens_flag) := by
  refine ⟨rfl, ?_, ?_, ?_, ?_⟩
  · unfold CanteraChemistryModel.sensitivity
    rcases hbase : M.evaluate s.sens_flag s.rest with ⟨ob, t⟩
    cases ob with
    | none => simp
    | some value =>
      dsimp only
      obtain ⟨k1, k2⟩ :=
        sensRun_flags M (1 + p) (1 / (1 + p)) p value ids ⟨true, M.save_restart t⟩
      rcases hrun : sensRun M (1 + p) (1 / (1 + p)) p value ids
          ⟨true, M.save_restart t⟩ with ⟨res, s2, fl⟩
      rw [hrun] at k1 k2
      dsimp only at k1 k2
      cases res with
      | none => exact fun b hb => k1 b hb
      | some l0 => exact fun b hb => k1 b hb
  · intro r s2 fl h
    unfold CanteraChemistryModel.sensitivity at h
    rcases hbase : M.evaluate s.sens_flag s.rest with ⟨ob, t⟩
    rw [hbase] at h
    cases ob with
    | none => exact absurd h (by simp)
    | some value =>
      dsimp only at h
      rcases hrun : sensRun M (1 + p) (1 / (1 + p)) p value ids
          ⟨true, M.save_restart t⟩ with ⟨res, s2x, fl2⟩
      rw [hrun] at h
      cases res with
      | none => exact absurd h (by simp)
      | some l0 =>
        dsimp only at h
        injection h with h1 h2
        injection h2 with h3 h4
        rw [← h3]
  · intro v t hbase s2 fl h
    unfold CanteraChemistryModel.sensitivity at h
    rw [hbase] at h
    dsimp only at h
    obtain ⟨k1, k2⟩ :=
      sensRun_flags M (1 + p) (1 / (1 + p)) p v ids ⟨true, M.save_restart t⟩
    rcases hrun : sensRun M (1 + p) (1 / (1 + p)) p v ids
        ⟨true, M.save_restart t⟩ with ⟨res, s2x, fl2⟩
    rw [hrun] at h k2
    dsimp only at k2
    cases res with
    | none =>
      dsimp only at h
      injection h with h1 h2
      injection h2 with h3 h4
      rw [← h3]
      exact k2
    | some l0 =>
      dsimp only at h
      exact absurd h (by simp)
  · intro t hbase
    unfold CanteraChemistryModel.sensitivity
    rw [hbase]

/-- C3 witness: the amended theorem's normal-completion clause applied to
the concrete subclass `M2`: the successful run `sensitivity M2 1 [3]` from
baseline state 5 ends with `_sens_flag` False. -/
theorem sens_flag_lifecycle_witness :
    (⟨false, (2 : ℚ)⟩ : SensState ℚ).sens_flag = false :=
  (sens_flag_lifecycle M2 1 [3] (⟨false, 5⟩ : SensState ℚ)
      300 1 "X" [] true true true 1 "soln").2.2.1
    (5, [3/10]) ⟨false, 2⟩ [false, true, true]
    (by norm_num [CanteraChemistryModel.sensitivity, sensRun, sensStep, M2])
